import Mathlib

/-!
Verification of the device-enrollment service client core
(`DeviceEnrollment` class): request shaping for create-or-update,
get, delete, bulk and query-page operations, argument resolution for
the polymorphic delete signatures, and constructor validation.

The embedding mirrors the source: JavaScript runtime values that flow
through the polymorphic `_delete` signature are modelled by the closed
universe `JsVal`, JavaScript truthiness by `truthy`/`strTruthy`, thrown
errors by the `Except JsError` result, and the request handed to the
transport collaborator (`executeApiCall`) by `HttpRequest`.
-/

set_option autoImplicit false

deriving instance DecidableEq for Except

namespace DeviceEnrollment

/-- An entity record (`Enrollment`, `EnrollmentGroup` or
`DeviceRegistrationStatus`): the only fields the client core reads are
the two identifier fields and the `etag`.  `none` models an absent
(`undefined`) field, `some ""` an empty string. -/
structure Entity where
  registrationId : Option String := none
  enrollmentGroupId : Option String := none
  etag : Option String := none
deriving DecidableEq

/-- A bulk-operation set (`BulkOperation`): treated as opaque by the
client core, which posts it whole as the request body. -/
structure BulkOperation where
  mode : String
  enrollments : List Entity
deriving DecidableEq

/-- A query specification: opaque to the client core, posted whole as
the query request body. -/
structure QuerySpecification where
  query : String
deriving DecidableEq

/-- The closed universe of JavaScript runtime values that can reach the
polymorphic delete parameters.  Completion handlers are opaque and are
identified by a natural number.  `otherTruthy`/`otherFalsy` stand for
values of any further runtime type (numbers, booleans, ...), split by
their JavaScript truthiness. -/
inductive JsVal where
  | undef
  | str (s : String)
  | func (f : Nat)
  | obj (e : Entity)
  | otherTruthy
  | otherFalsy
deriving DecidableEq

/-- JavaScript truthiness of a `JsVal`: `undefined` and the empty
string are falsy, functions and objects are truthy. -/
def truthy : JsVal → Bool
  | .undef => false
  | .str s => !(s == "")
  | .func _ => true
  | .obj _ => true
  | .otherTruthy => true
  | .otherFalsy => false

/-- JavaScript truthiness of an optional string-valued field: falsy
exactly when the field is absent or the empty string. -/
def strTruthy : Option String → Bool
  | none => false
  | some s => !(s == "")

/-- Property access `v.registrationId` on an arbitrary runtime value:
yields the field on an entity object and `undefined` otherwise. -/
def JsVal.regIdField : JsVal → Option String
  | .obj e => e.registrationId
  | _ => none

/-- Property access `v.enrollmentGroupId` on an arbitrary runtime value. -/
def JsVal.groupIdField : JsVal → Option String
  | .obj e => e.enrollmentGroupId
  | _ => none

/-- Property access `v.etag` on an arbitrary runtime value. -/
def JsVal.etagField : JsVal → Option String
  | .obj e => e.etag
  | _ => none

/-- The two kinds of synchronous errors the client core throws:
`ReferenceError` (a required input entirely absent or falsy) and
`ArgumentError` (an input present but of the wrong shape). -/
inductive JsError where
  | referenceError (msg : String)
  | argumentError (msg : String)
deriving DecidableEq

/-- Whether an error is the invalid-argument condition (`ArgumentError`). -/
def JsError.isArgumentError : JsError → Bool
  | .argumentError _ => true
  | .referenceError _ => false

/-- A header value as stored in the JavaScript header bag: the
page-size header stores a number, every other header a string. -/
inductive HeaderValue where
  | str (s : String)
  | num (n : Int)
deriving DecidableEq

/-- A request body handed to the transport: an entity, a bulk-operation
set, or a query specification. -/
inductive HttpBody where
  | entity (e : Entity)
  | bulk (b : BulkOperation)
  | query (q : QuerySpecification)
deriving DecidableEq

/-- The request handed to `executeApiCall` on the transport
collaborator. -/
structure HttpRequest where
  method : String
  path : String
  headers : List (String × HeaderValue)
  body : Option HttpBody
deriving DecidableEq

/-- Look a header up in the request's header bag by exact key. -/
def HttpRequest.header (r : HttpRequest) (k : String) : Option HeaderValue :=
  (r.headers.find? (fun p => p.1 == k)).map (fun p => p.2)

/-! ### Percent encoding (`encodeURIComponent`) -/

/-- The characters `encodeURIComponent` leaves unescaped: ASCII
letters, digits, and `- _ . ! ~ * ( )` and the apostrophe (code 39). -/
def isUnreservedURIChar (c : Char) : Bool :=
  let n := c.toNat
  (65 ≤ n && n ≤ 90) || (97 ≤ n && n ≤ 122) || (48 ≤ n && n ≤ 57) ||
    n == 45 || n == 95 || n == 46 || n == 33 || n == 126 || n == 42 ||
    n == 39 || n == 40 || n == 41

/-- Upper-case hexadecimal digit for `n < 16`. -/
def hexDigitUpper (n : Nat) : Char :=
  if n < 10 then Char.ofNat (48 + n) else Char.ofNat (55 + n)

/-- The three characters `%XY` encoding one byte. -/
def percentEncodeByte (b : Nat) : List Char :=
  ['%', hexDigitUpper (b / 16), hexDigitUpper (b % 16)]

/-- The UTF-8 bytes of a character, as natural numbers below 256. -/
def utf8BytesOfChar (c : Char) : List Nat :=
  if c.toNat < 128 then [c.toNat]
  else if c.toNat < 2048 then [192 + c.toNat / 64, 128 + c.toNat % 64]
  else if c.toNat < 65536 then
    [224 + c.toNat / 4096, 128 + c.toNat / 64 % 64, 128 + c.toNat % 64]
  else
    [240 + c.toNat / 262144, 128 + c.toNat / 4096 % 64, 128 + c.toNat / 64 % 64,
     128 + c.toNat % 64]

/-- Encoding of one character under `encodeURIComponent`: unreserved
characters pass through, every other character is replaced by the
percent encoding of its UTF-8 bytes. -/
def encodeChar (c : Char) : List Char :=
  if isUnreservedURIChar c then [c]
  else (utf8BytesOfChar c).flatMap percentEncodeByte

/-- JavaScript `encodeURIComponent`. -/
def encodeURIComponent (s : String) : String :=
  String.mk (s.data.flatMap encodeChar)

/-! ### Fixed prefixes and version -/

/-- `this._enrollmentsPrefix` -/
def enrollmentsPrefix : String := "/enrollments/"

/-- `this._enrollmentGroupsPrefix` -/
def enrollmentGroupsPrefix : String := "/enrollmentGroups/"

/-- `this._registrationsPrefix` -/
def registrationsPrefix : String := "/registrations/"

/-- `this._versionQueryString()` -/
def versionQueryString : String := "?api-version=2017-08-31-preview"

/-! ### Operations -/

/-- The idiom `if (!field) throw ArgumentError(msg); id = field;` used
for the entity identifier fields: fails when the field is absent or
empty, yields the field's value otherwise. -/
def requireField (v : Option String) (msg : String) : Except JsError String :=
  match v with
  | none => .error (.argumentError msg)
  | some s => if s == "" then .error (.argumentError msg) else .ok s

/-- `_get(endpointPrefix, id, getCallback)`: throws `ReferenceError` on
a falsy id, otherwise builds
`GET <endpointPrefix><encodeURIComponent id><versionQueryString>` with
only the `Accept` header and no body. -/
def getOp (endpointPre : String) (id : Option String) : Except JsError HttpRequest :=
  match id with
  | none => .error (.referenceError "Required parameter was null or undefined when calling get.")
  | some i =>
    if i == "" then
      .error (.referenceError "Required parameter was null or undefined when calling get.")
    else
      .ok { method := "GET"
            path := endpointPre ++ encodeURIComponent i ++ versionQueryString
            headers := [("Accept", .str "application/json")]
            body := none }

/-- `_createOrUpdate(endpointPrefix, enrollment, callback)`: throws
`ReferenceError` on an absent entity, reads `enrollmentGroupId` when
the endpoint is the enrollment-groups one and `registrationId`
otherwise, throws `ArgumentError` when that field is falsy, and builds
the `PUT` request with the entity as body. -/
def createOrUpdate (endpointPre : String) (enrollment : Option Entity) :
    Except JsError HttpRequest :=
  match enrollment with
  | none => .error (.referenceError "Required parameter enrollment was null or undefined when calling createOrUpdate.")
  | some e =>
    match requireField
        (if endpointPre == enrollmentGroupsPrefix then e.enrollmentGroupId else e.registrationId)
        "Required id property was null or undefined when calling createOrUpdate." with
    | .error err => .error err
    | .ok i =>
      .ok { method := "PUT"
            path := endpointPre ++ encodeURIComponent i ++ versionQueryString
            headers := [("Accept", .str "application/json"),
                        ("Content-Type", .str "application/json; charset=utf-8")]
            body := some (.entity e) }

/-- `bulkOperation(bulkOperation, callback)`: throws `ReferenceError`
on an absent argument, otherwise posts the whole set to
`<enrollmentsPrefix><versionQueryString>` with `Accept` and
`Content-Type` headers. -/
def bulkOperation (bulkOp : Option BulkOperation) : Except JsError HttpRequest :=
  match bulkOp with
  | none => .error (.referenceError "Required bulkOperation property was null or undefined when calling bulkOperation.")
  | some b =>
    .ok { method := "POST"
          path := enrollmentsPrefix ++ versionQueryString
          headers := [("Accept", .str "application/json"),
                      ("Content-Type", .str "application/json; charset=utf-8")]
          body := some (.bulk b) }

/-- The page-fetching closure returned by
`_getEnrollFunc(prefix, querySpecification, pageSize)`, applied to a
continuation token: posts the query specification to
`<prefix>query<versionQueryString>`, adding the continuation header
when the token is truthy and the page-size header when the configured
page size is truthy (a nonzero number). -/
def getEnrollFunc (endpointPre : String) (querySpecification : QuerySpecification)
    (pageSize : Option Int) (continuationToken : Option String) : HttpRequest :=
  { method := "POST"
    path := endpointPre ++ "query" ++ versionQueryString
    headers :=
      [("Accept", .str "application/json"),
       ("Content-Type", .str "application/json; charset=utf-8")] ++
      (match continuationToken with
       | some t => if t == "" then [] else [("x-ms-continuation", .str t)]
       | none => []) ++
      (match pageSize with
       | some n => if n == 0 then [] else [("x-ms-max-item-count", .num n)]
       | none => [])
    body := some (.query querySpecification) }

/-! ### Delete -/

/-- The argument-resolution phase of `_delete` (everything before the
common request-building tail): resolves the polymorphic
`(enrollmentOrIdOrRegistration, etagOrCallback, deleteCallback)`
arguments into `(id, ifMatch, suppliedCallback)` or a thrown error,
following the source branch for branch. -/
def deleteResolve (endpointPre : String) (firstArg etagOrCallback deleteCallback : JsVal) :
    Except JsError (String × Option String × Option Nat) :=
  if truthy firstArg = false then
    .error (.referenceError "Required parameter was null or undefined when calling delete.")
  else
    match firstArg with
    | .str id =>
      if truthy etagOrCallback = false then
        .ok (id, none, none)
      else
        match etagOrCallback with
        | .str etag =>
          if truthy deleteCallback = false then
            .ok (id, some etag, none)
          else
            match deleteCallback with
            | .func f => .ok (id, some etag, some f)
            | _ => .error (.argumentError "Third argument of this delete method must be a function.")
        | .func f => .ok (id, none, some f)
        | _ => .error (.argumentError "Second argument of this delete method must be a string or function.")
    | fa =>
      match (if endpointPre == enrollmentsPrefix then
               requireField fa.regIdField "Required property registrationId was null or undefined when calling delete."
             else if endpointPre == enrollmentGroupsPrefix then
               requireField fa.groupIdField "Required property enrollmentGroupId was null or undefined when calling delete."
             else if endpointPre == registrationsPrefix then
               requireField fa.regIdField "Required property registrationId was null or undefined when calling delete."
             else
               .error (.argumentError "Invalid path specified for delete operation.")) with
      | .error err => .error err
      | .ok id =>
        match (if truthy etagOrCallback = false then
                 (Except.ok none : Except JsError (Option Nat))
               else
                 match etagOrCallback with
                 | .func f => .ok (some f)
                 | _ => .error (.argumentError "The second argument of this delete function if present MUST be a function.")) with
        | .error err => .error err
        | .ok cb =>
          .ok (id, (if strTruthy fa.etagField then fa.etagField else none), cb)

/-- The common tail of `_delete` (its last sixteen lines): builds the
`DELETE` request from the resolved id and `If-Match` value; the header
bag starts empty and gains `If-Match` only when the resolved value is
truthy; the body is null. -/
def mkDeleteRequest (endpointPre id : String) (ifMatch : Option String) : HttpRequest :=
  { method := "DELETE"
    path := endpointPre ++ encodeURIComponent id ++ versionQueryString
    headers :=
      match ifMatch with
      | some s => if s == "" then [] else [("If-Match", .str s)]
      | none => []
    body := none }

/-- The result of a resolved `_delete` call: the request handed to the
transport and the completion handler (if any) that the transport
callback will invoke. -/
structure DeleteResolution where
  request : HttpRequest
  suppliedCallback : Option Nat
deriving DecidableEq

/-- `_delete(endpointPrefix, enrollmentOrIdOrRegistration,
etagOrCallback, deleteCallback)`: argument resolution followed by the
common request-building tail. -/
def deleteOp (endpointPre : String) (firstArg etagOrCallback deleteCallback : JsVal) :
    Except JsError DeleteResolution :=
  (deleteResolve endpointPre firstArg etagOrCallback deleteCallback).map
    fun r => { request := mkDeleteRequest endpointPre r.1 r.2.1, suppliedCallback := r.2.2 }

/-- The handlers invoked by the transport-completion closure of
`_delete`: only the resolved `suppliedCallback`, when present. -/
def deleteCompletionCalls (suppliedCallback : Option Nat) : List Nat :=
  match suppliedCallback with
  | some f => [f]
  | none => []

/-! ### Constructor -/

/-- `RestApiClient.TransportConfig`: the host and the shared-access
signature, each possibly absent or empty. -/
structure TransportConfig where
  host : Option String := none
  sharedAccessSignature : Option String := none
deriving DecidableEq

/-- The state of a successfully constructed `DeviceEnrollment` client:
its stored configuration and whether it instantiated its own
`RestApiClient` transport collaborator (it does exactly when none was
supplied). -/
structure State where
  config : TransportConfig
  restApiClientConstructed : Bool
deriving DecidableEq

/-- The `DeviceEnrollment` constructor: `ReferenceError` when the
configuration is absent, `ArgumentError` when the host or the
shared-access signature is falsy, otherwise the constructed state; the
transport collaborator is instantiated only on the success path. -/
def construct (config : Option TransportConfig) (restApiClientProvided : Bool) :
    Except JsError State :=
  match config with
  | none => .error (.referenceError "The config parameter cannot be falsy")
  | some c =>
    if !(strTruthy c.host) || !(strTruthy c.sharedAccessSignature) then
      .error (.argumentError "The config argument is missing either the host or the sharedAccessSignature property")
    else
      .ok { config := c, restApiClientConstructed := !restApiClientProvided }

/-! ### Lemmas about percent encoding -/

theorem char_toNat_lt (c : Char) : c.toNat < 1114112 := by
  have h := c.valid
  rcases h with h | ⟨_, h2⟩
  · exact Nat.lt_trans h (by decide)
  · exact h2

theorem utf8BytesOfChar_lt (c : Char) : ∀ b ∈ utf8BytesOfChar c, b < 256 := by
  have hc := char_toNat_lt c
  intro b hb
  unfold utf8BytesOfChar at hb
  split at hb
  · simp only [List.mem_singleton] at hb; omega
  · split at hb
    · simp only [List.mem_cons, List.mem_singleton, List.not_mem_nil, or_false] at hb
      rcases hb with hb | hb <;> omega
    · split at hb
      · simp only [List.mem_cons, List.mem_singleton, List.not_mem_nil, or_false] at hb
        rcases hb with hb | hb | hb <;> omega
      · simp only [List.mem_cons, List.mem_singleton, List.not_mem_nil, or_false] at hb
        rcases hb with hb | hb | hb | hb <;> omega

theorem hexDigitUpper_safe (m : Nat) (hm : m < 16) :
    hexDigitUpper m ≠ '/' ∧ hexDigitUpper m ≠ '?' ∧ hexDigitUpper m ≠ ' ' := by
  interval_cases m <;> decide

theorem percentEncodeByte_safe (b : Nat) (hb : b < 256) :
    ∀ c ∈ percentEncodeByte b, c ≠ '/' ∧ c ≠ '?' ∧ c ≠ ' ' := by
  intro c hc
  unfold percentEncodeByte at hc
  simp only [List.mem_cons, List.mem_singleton, List.not_mem_nil, or_false] at hc
  rcases hc with hc | hc | hc
  · subst hc; decide
  · subst hc; exact hexDigitUpper_safe (b / 16) (by omega)
  · subst hc; exact hexDigitUpper_safe (b % 16) (by omega)

theorem isUnreservedURIChar_safe (c : Char) (h : isUnreservedURIChar c = true) :
    c ≠ '/' ∧ c ≠ '?' ∧ c ≠ ' ' := by
  refine ⟨fun hc => ?_, fun hc => ?_, fun hc => ?_⟩ <;>
    (subst hc; exact absurd h (by decide))

/-- No character of a percent-encoded identifier is a slash, a
question mark or a space: encoding leaves the surrounding path
structure intact. -/
theorem encodeURIComponent_safe (s : String) :
    ∀ c ∈ (encodeURIComponent s).data, c ≠ '/' ∧ c ≠ '?' ∧ c ≠ ' ' := by
  intro c hc
  have hc' : c ∈ s.data.flatMap encodeChar := hc
  rw [List.mem_flatMap] at hc'
  rcases hc' with ⟨a, _, hfa⟩
  unfold encodeChar at hfa
  by_cases hu : isUnreservedURIChar a = true
  · rw [if_pos hu, List.mem_singleton] at hfa
    subst hfa
    exact isUnreservedURIChar_safe c hu
  · rw [if_neg hu, List.mem_flatMap] at hfa
    rcases hfa with ⟨b, hb, hcb⟩
    exact percentEncodeByte_safe b (utf8BytesOfChar_lt a b hb) c hcb

/-! ### General helper lemmas -/

theorem except_map_eq_ok {ε α β : Type} (f : α → β) (x : Except ε α) (y : β)
    (h : x.map f = .ok y) : ∃ a, x = .ok a ∧ y = f a := by
  cases x with
  | error e => simp [Except.map] at h
  | ok a => refine ⟨a, rfl, ?_⟩; simpa [Except.map] using h.symm

/-- The request of every resolved delete carries neither `Accept` nor
`Content-Type` and has no body: its header bag starts empty and can
only gain `If-Match`. -/
theorem mkDeleteRequest_headers (endpointPre id : String) (im : Option String) :
    (mkDeleteRequest endpointPre id im).header "Accept" = none ∧
    (mkDeleteRequest endpointPre id im).header "Content-Type" = none ∧
    (mkDeleteRequest endpointPre id im).body = none := by
  cases im with
  | none => exact ⟨rfl, rfl, rfl⟩
  | some s =>
    by_cases hs : (s == "") = true <;>
      simp [mkDeleteRequest, HttpRequest.header, hs, List.find?]

/-! ### Claim theorems -/

/-- Claim C5, counterexample: a fetch with the empty string as
identifier fails with a `ReferenceError` — the missing-argument
condition — not with the invalid-argument condition (`ArgumentError`)
the claim states. -/
theorem getEmptyIdCounterexample :
    getOp enrollmentsPrefix (some "") =
      .error (.referenceError "Required parameter was null or undefined when calling get.") ∧
    JsError.isArgumentError
      (.referenceError "Required parameter was null or undefined when calling get.") = false := by
  exact ⟨rfl, rfl⟩

/-- Claim C5 (amended): for every fetch, an empty identifier fails
synchronously with the missing-argument condition (`ReferenceError`) —
the same condition as an entirely absent identifier — and no request
is built, hence no network call is made. -/
theorem getFalsyIdMissingArgument (endpointPre : String) :
    getOp endpointPre (some "") =
      .error (.referenceError "Required parameter was null or undefined when calling get.") ∧
    getOp endpointPre none =
      .error (.referenceError "Required parameter was null or undefined when calling get.") ∧
    JsError.isArgumentError
      (.referenceError "Required parameter was null or undefined when calling get.") = false := by
  exact ⟨rfl, rfl, rfl⟩

/-- Claim C6: for every create-or-update, an absent entity fails
synchronously with the missing-argument condition (`ReferenceError`);
an entity whose resource-kind-specific identifier field
(`enrollmentGroupId` for the group endpoint, `registrationId`
otherwise) is absent or empty fails synchronously with the
invalid-argument condition (`ArgumentError`); in both cases no request
is built, hence no network call is made. -/
theorem createOrUpdateValidation (endpointPre : String) (e : Entity)
    (hid : strTruthy
      (if endpointPre == enrollmentGroupsPrefix then e.enrollmentGroupId
       else e.registrationId) = false) :
    createOrUpdate endpointPre none =
      .error (.referenceError "Required parameter enrollment was null or undefined when calling createOrUpdate.") ∧
    createOrUpdate endpointPre (some e) =
      .error (.argumentError "Required id property was null or undefined when calling createOrUpdate.") := by
  refine ⟨rfl, ?_⟩
  unfold createOrUpdate requireField
  dsimp only
  cases hx : (if endpointPre == enrollmentGroupsPrefix then e.enrollmentGroupId
              else e.registrationId) with
  | none => rfl
  | some s =>
    rw [hx] at hid
    simp [strTruthy] at hid
    rw [hid]
    rfl

/-- Witness for C6 at the enrollment endpoint and an entity with no
identifier fields at all. -/
theorem createOrUpdateValidationWitness :
    strTruthy
      (if enrollmentsPrefix == enrollmentGroupsPrefix then Entity.enrollmentGroupId {}
       else Entity.registrationId {}) = false ∧
    createOrUpdate enrollmentsPrefix (some {}) =
      .error (.argumentError "Required id property was null or undefined when calling createOrUpdate.") :=
  ⟨by decide, (createOrUpdateValidation enrollmentsPrefix {} (by decide)).2⟩

/-- Claim C7, counterexample: a cursor configured with page size `-1`
issues its request WITH the page-size header (carrying `-1`), because
the source only tests JavaScript truthiness of the configured size and
negative numbers are truthy. -/
theorem negativePageSizeCounterexample :
    (getEnrollFunc enrollmentsPrefix ⟨"SELECT *"⟩ (some (-1)) none).header
      "x-ms-max-item-count" = some (.num (-1)) := by
  decide

/-- Claim C7 (amended): the page-size header is attached iff the
configured page size is a nonzero number, and then carries that very
number; an absent or zero size attaches no header, while a negative
size does attach the header. -/
theorem pageSizeHeaderIffNonzero (endpointPre : String) (q : QuerySpecification)
    (ct : Option String) (ps : Option Int) :
    (getEnrollFunc endpointPre q ps ct).header "x-ms-max-item-count" =
      (match ps with
       | some n => if n == 0 then none else some (.num n)
       | none => none) := by
  cases ps with
  | none =>
    cases ct with
    | none => rfl
    | some t =>
      by_cases ht : (t == "") = true <;>
        simp [getEnrollFunc, HttpRequest.header, ht, List.find?]
  | some n =>
    by_cases hn : (n == 0) = true <;>
      cases ct with
      | none => simp [getEnrollFunc, HttpRequest.header, hn, List.find?]
      | some t =>
        by_cases ht : (t == "") = true <;>
          simp [getEnrollFunc, HttpRequest.header, hn, ht, List.find?]

/-- Claim C8: the bulk operation fails fast with the missing-argument
condition on an absent argument; otherwise it issues exactly one
`POST` carrying `Content-Type` and the whole set as body — but its
path is `/enrollments/?api-version=2017-08-31-preview`, with a
trailing slash before the query string inherited from the
`/enrollments/` path prefix, not the documented
`/enrollments?api-version=2017-08-31-preview`. -/
theorem bulkOperationRequest (b : BulkOperation) :
    bulkOperation none =
      .error (.referenceError "Required bulkOperation property was null or undefined when calling bulkOperation.") ∧
    (bulkOperation (some b)).map
      (fun r => (r.method, r.path, r.header "Content-Type", r.body)) =
      .ok ("POST", "/enrollments/?api-version=2017-08-31-preview",
           some (.str "application/json; charset=utf-8"), some (.bulk b)) ∧
    ("/enrollments/?api-version=2017-08-31-preview" : String) ≠
      "/enrollments?api-version=2017-08-31-preview" := by
  refine ⟨rfl, ?_, by decide⟩
  rfl

/-- Claim C9: construction with an absent configuration fails with the
missing-configuration condition (`ReferenceError`); a configuration
whose host or credential is missing fails with the
invalid-configuration condition (`ArgumentError`); in both cases the
result carries no constructed state, so the transport collaborator is
never instantiated. -/
theorem constructValidation (c : TransportConfig) (rest : Bool)
    (hc : strTruthy c.host = false ∨ strTruthy c.sharedAccessSignature = false) :
    construct none rest = .error (.referenceError "The config parameter cannot be falsy") ∧
    construct (some c) rest =
      .error (.argumentError "The config argument is missing either the host or the sharedAccessSignature property") := by
  refine ⟨rfl, ?_⟩
  rcases hc with h | h <;> simp [construct, h]

/-- Witness for C9 at a configuration with a credential but no host. -/
theorem constructValidationWitness :
    (strTruthy (TransportConfig.host { sharedAccessSignature := some "sas" }) = false ∨
     strTruthy (TransportConfig.sharedAccessSignature { sharedAccessSignature := some "sas" }) = false) ∧
    construct (some { sharedAccessSignature := some "sas" }) true =
      .error (.argumentError "The config argument is missing either the host or the sharedAccessSignature property") :=
  ⟨Or.inl (by decide),
   (constructValidation { sharedAccessSignature := some "sas" } true (Or.inl (by decide))).2⟩

/-- Claim C10: a delete with a non-empty identifier first argument and
the empty string as second argument resolves exactly as if the second
argument were absent: no error, no `If-Match` header, and the resolved
completion handler is `none`, so the transport-completion closure
invokes no handler at all — the handler passed as third argument is
silently discarded. -/
theorem deleteEmptyEtagDiscardsHandler (endpointPre id : String) (fn : Nat)
    (hid : id ≠ "") :
    deleteResolve endpointPre (.str id) (.str "") (.func fn) = .ok (id, none, none) ∧
    (deleteOp endpointPre (.str id) (.str "") (.func fn)).map
      (fun r => (r.request.header "If-Match", r.suppliedCallback,
                 deleteCompletionCalls r.suppliedCallback)) = .ok (none, none, []) := by
  have hidB : (id == "") = false := beq_eq_false_iff_ne.mpr hid
  constructor
  · simp [deleteResolve, truthy, hidB]
  · simp [deleteOp, deleteResolve, truthy, hidB, Except.map, mkDeleteRequest,
          HttpRequest.header, deleteCompletionCalls]

/-- Witness for C10 at the enrollment endpoint with id `r1` and
handler `7`. -/
theorem deleteEmptyEtagDiscardsHandlerWitness :
    ("r1" : String) ≠ "" ∧
    deleteResolve enrollmentsPrefix (.str "r1") (.str "") (.func 7) = .ok ("r1", none, none) :=
  ⟨by decide, (deleteEmptyEtagDiscardsHandler enrollmentsPrefix "r1" 7 (by decide)).1⟩

/-- Claim C1, counterexample: a delete with identifier `r1` and the
empty string as second argument — a string second argument — attaches
no `If-Match` header at all, instead of `If-Match` equal to that
string: the source tests JavaScript truthiness first, and the empty
string is falsy. -/
theorem deleteEmptyEtagStringCounterexample :
    (deleteOp enrollmentsPrefix (.str "r1") (.str "") .undef).map
      (fun r => r.request.header "If-Match") = .ok none ∧
    (deleteOp enrollmentsPrefix (.str "r1") (.str "") .undef).map
      (fun r => r.request.header "If-Match") ≠ .ok (some (.str "")) := by
  constructor
  · decide
  · decide

/-- Claim C1 (amended): the delete conditional-write header is
resolved per the table, with "string second argument" read as
"non-empty string second argument": bare identifier → no `If-Match`
and no handler; identifier with a non-empty etag string → `If-Match`
equal to that string; identifier with a handler second argument → no
`If-Match`, that handler resolved as the completion handler; entity
with a non-empty etag → `If-Match` equal to the entity's etag; entity
without an etag → no `If-Match`.  (An empty-string second argument is
treated as absent.) -/
theorem deleteResolutionTable (endpointPre id etag : String) (fn : Nat)
    (hpre : endpointPre = enrollmentsPrefix ∨ endpointPre = enrollmentGroupsPrefix ∨
            endpointPre = registrationsPrefix)
    (hid : id ≠ "") (hetag : etag ≠ "") :
    ((deleteOp endpointPre (.str id) .undef .undef).map
        (fun r => (r.request.header "If-Match", r.suppliedCallback)) = .ok (none, none)) ∧
    ((deleteOp endpointPre (.str id) (.str etag) .undef).map
        (fun r => (r.request.header "If-Match", r.suppliedCallback)) =
      .ok (some (.str etag), none)) ∧
    ((deleteOp endpointPre (.str id) (.func fn) .undef).map
        (fun r => (r.request.header "If-Match", r.suppliedCallback)) = .ok (none, some fn)) ∧
    ((deleteOp endpointPre
        (.obj { registrationId := some id, enrollmentGroupId := some id, etag := some etag })
        .undef .undef).map
        (fun r => (r.request.header "If-Match", r.suppliedCallback)) =
      .ok (some (.str etag), none)) ∧
    ((deleteOp endpointPre
        (.obj { registrationId := some id, enrollmentGroupId := some id, etag := none })
        .undef .undef).map
        (fun r => (r.request.header "If-Match", r.suppliedCallback)) = .ok (none, none)) := by
  have hidB : (id == "") = false := beq_eq_false_iff_ne.mpr hid
  have hetagB : (etag == "") = false := beq_eq_false_iff_ne.mpr hetag
  refine ⟨?_, ?_, ?_, ?_, ?_⟩
  · simp [deleteOp, deleteResolve, truthy, hidB, Except.map, mkDeleteRequest,
          HttpRequest.header]
  · simp [deleteOp, deleteResolve, truthy, hidB, hetagB, Except.map, mkDeleteRequest,
          HttpRequest.header, List.find?]
  · simp [deleteOp, deleteResolve, truthy, hidB, Except.map, mkDeleteRequest,
          HttpRequest.header]
  · rcases hpre with h | h | h <;> subst h <;>
      simp [deleteOp, deleteResolve, truthy, strTruthy, requireField, JsVal.regIdField,
            JsVal.groupIdField, JsVal.etagField, hidB, hetagB, Except.map, mkDeleteRequest,
            HttpRequest.header, List.find?, enrollmentsPrefix, enrollmentGroupsPrefix,
            registrationsPrefix]
  · rcases hpre with h | h | h <;> subst h <;>
      simp [deleteOp, deleteResolve, truthy, strTruthy, requireField, JsVal.regIdField,
            JsVal.groupIdField, JsVal.etagField, hidB, Except.map, mkDeleteRequest,
            HttpRequest.header, enrollmentsPrefix, enrollmentGroupsPrefix,
            registrationsPrefix]

/-- Witness for C1 (amended) at the enrollment endpoint, id `r1`,
etag `abc`, handler `0`. -/
theorem deleteResolutionTableWitness :
    ("r1" : String) ≠ "" ∧ ("abc" : String) ≠ "" ∧
    (deleteOp enrollmentsPrefix (.str "r1") (.str "abc") .undef).map
      (fun r => (r.request.header "If-Match", r.suppliedCallback)) =
      .ok (some (.str "abc"), none) :=
  ⟨by decide, by decide,
   (deleteResolutionTable enrollmentsPrefix "r1" "abc" 0 (Or.inl rfl)
      (by decide) (by decide)).2.1⟩

/-- Claim C2: the path built by create-or-update, fetch and delete is
the resource-kind path prefix, then the percent-encoded identifier,
then the fixed version query string; the encoded identifier contains
no `/`, `?` or space, so the prefix portion of the path is unchanged
by any identifier. -/
theorem pathCanonical (endpointPre i : String) (e : Entity) (hi : i ≠ "")
    (he : (if endpointPre == enrollmentGroupsPrefix then e.enrollmentGroupId
           else e.registrationId) = some i) :
    ((getOp endpointPre (some i)).map HttpRequest.path =
      .ok (endpointPre ++ encodeURIComponent i ++ versionQueryString)) ∧
    ((deleteOp endpointPre (.str i) .undef .undef).map (fun r => r.request.path) =
      .ok (endpointPre ++ encodeURIComponent i ++ versionQueryString)) ∧
    ((createOrUpdate endpointPre (some e)).map HttpRequest.path =
      .ok (endpointPre ++ encodeURIComponent i ++ versionQueryString)) ∧
    (∀ c ∈ (encodeURIComponent i).data, c ≠ '/' ∧ c ≠ '?' ∧ c ≠ ' ') := by
  have hiB : (i == "") = false := beq_eq_false_iff_ne.mpr hi
  refine ⟨?_, ?_, ?_, encodeURIComponent_safe i⟩
  · simp [getOp, hiB, Except.map]
  · simp [deleteOp, deleteResolve, truthy, hiB, Except.map, mkDeleteRequest]
  · unfold createOrUpdate requireField
    dsimp only
    rw [he]
    simp [hiB, Except.map]

/-- Witness for C2 at the enrollment endpoint with id `r1`. -/
theorem pathCanonicalWitness :
    ("r1" : String) ≠ "" ∧
    (getOp enrollmentsPrefix (some "r1")).map HttpRequest.path =
      .ok (enrollmentsPrefix ++ encodeURIComponent "r1" ++ versionQueryString) :=
  ⟨by decide,
   (pathCanonical enrollmentsPrefix "r1" { registrationId := some "r1" }
      (by decide) (by decide)).1⟩

/-- Claim C3, counterexample: a delete invoked with the bare
identifier string `r1` as first argument and the etag string `abc` as
second argument issues a conditional request carrying
`If-Match: abc` — so a bare-identifier delete is NOT unconditional
regardless of the remaining arguments. -/
theorem bareIdEtagConditionalCounterexample :
    (deleteOp enrollmentsPrefix (.str "r1") (.str "abc") .undef).map
      (fun r => r.request.header "If-Match") = .ok (some (.str "abc")) := by
  decide

/-- Claim C3 (amended): a delete invoked with a bare identifier string
as first argument is never conditional — carries no `If-Match`
header — as long as the second argument is not a string; when the
second argument is a non-empty string, that string is applied as the
`If-Match` precondition. -/
theorem bareIdUnconditionalWithoutEtagString (endpointPre id : String)
    (second third : JsVal) (hsecond : ∀ s, second ≠ .str s) :
    ∀ res, deleteOp endpointPre (.str id) second third = .ok res →
      res.request.header "If-Match" = none := by
  intro res hres
  rcases except_map_eq_ok _ _ _ hres with ⟨x, hx, hy⟩
  subst hy
  suffices hm : x.2.1 = none by
    show (mkDeleteRequest endpointPre x.1 x.2.1).header "If-Match" = none
    rw [hm]
    rfl
  by_cases hid : (id == "") = true
  · simp [deleteResolve, truthy, hid] at hx
  · cases second with
    | str s => exact absurd rfl (hsecond s)
    | undef =>
      simp [deleteResolve, truthy, hid] at hx
      simp [← hx]
    | otherFalsy =>
      simp [deleteResolve, truthy, hid] at hx
      simp [← hx]
    | func f =>
      simp [deleteResolve, truthy, hid] at hx
      simp [← hx]
    | obj e => simp [deleteResolve, truthy, hid] at hx
    | otherTruthy => simp [deleteResolve, truthy, hid] at hx

/-- Witness for C3 (amended) at id `r1` with a handler second
argument. -/
theorem bareIdUnconditionalWithoutEtagStringWitness :
    HttpRequest.header
      { method := "DELETE",
        path := "/enrollments/r1?api-version=2017-08-31-preview",
        headers := [], body := none } "If-Match" = none :=
  bareIdUnconditionalWithoutEtagString enrollmentsPrefix "r1" (.func 5) .undef
    (fun s h => by cases h)
    { request := { method := "DELETE",
                   path := "/enrollments/r1?api-version=2017-08-31-preview",
                   headers := [], body := none },
      suppliedCallback := some 5 }
    (by decide)

/-- Claim C4, counterexample: the request issued by a delete carries
no `Accept` header at all — its header bag starts empty and can only
gain `If-Match` — contradicting "every request built by this core
carries `Accept: application/json`". -/
theorem deleteNoAcceptCounterexample :
    (deleteOp enrollmentsPrefix (.str "r1") .undef .undef).map
      (fun r => r.request.header "Accept") = .ok none := by
  decide

/-- Claim C4 (amended): create-or-update, fetch, bulk and query-page
requests all carry `Accept: application/json`, and every request of
the core carries `Content-Type: application/json; charset=utf-8`
exactly when a body is sent; delete requests, however, carry no
`Accept` header (and no `Content-Type`, and no body). -/
theorem headerAssembly (endpointPre i : String) (e : Entity) (b : BulkOperation)
    (q : QuerySpecification) (ct : Option String) (ps : Option Int)
    (first second third : JsVal) (hi : i ≠ "")
    (he : (if endpointPre == enrollmentGroupsPrefix then e.enrollmentGroupId
           else e.registrationId) = some i) :
    ((getOp endpointPre (some i)).map
        (fun r => (r.header "Accept", r.header "Content-Type", r.body)) =
      .ok (some (.str "application/json"), none, none)) ∧
    ((createOrUpdate endpointPre (some e)).map
        (fun r => (r.header "Accept", r.header "Content-Type", r.body)) =
      .ok (some (.str "application/json"), some (.str "application/json; charset=utf-8"),
           some (.entity e))) ∧
    ((bulkOperation (some b)).map
        (fun r => (r.header "Accept", r.header "Content-Type", r.body)) =
      .ok (some (.str "application/json"), some (.str "application/json; charset=utf-8"),
           some (.bulk b))) ∧
    ((getEnrollFunc endpointPre q ps ct).header "Accept" = some (.str "application/json") ∧
     (getEnrollFunc endpointPre q ps ct).header "Content-Type" =
       some (.str "application/json; charset=utf-8") ∧
     (getEnrollFunc endpointPre q ps ct).body = some (.query q)) ∧
    (∀ res, deleteOp endpointPre first second third = .ok res →
      res.request.header "Accept" = none ∧ res.request.header "Content-Type" = none ∧
      res.request.body = none) := by
  have hiB : (i == "") = false := beq_eq_false_iff_ne.mpr hi
  refine ⟨?_, ?_, rfl, ⟨rfl, rfl, rfl⟩, ?_⟩
  · simp [getOp, hiB, Except.map, HttpRequest.header, List.find?]
  · unfold createOrUpdate requireField
    dsimp only
    rw [he]
    simp [hiB, Except.map, HttpRequest.header, List.find?]
  · intro res hres
    rcases except_map_eq_ok _ _ _ hres with ⟨x, _, hy⟩
    subst hy
    exact mkDeleteRequest_headers endpointPre x.1 x.2.1

/-- Witness for C4 (amended) at the enrollment endpoint with id `r1`
and a concrete resolved delete. -/
theorem headerAssemblyWitness :
    ((getOp enrollmentsPrefix (some "r1")).map
        (fun r => (r.header "Accept", r.header "Content-Type", r.body)) =
      .ok (some (.str "application/json"), none, none)) ∧
    HttpRequest.header
      { method := "DELETE",
        path := "/enrollments/r1?api-version=2017-08-31-preview",
        headers := [], body := none } "Accept" = none := by
  have h := headerAssembly enrollmentsPrefix "r1" { registrationId := some "r1" }
    ⟨"create", []⟩ ⟨"q"⟩ none none (.str "r1") .undef .undef
    (by decide) (by decide)
  exact ⟨h.1, (h.2.2.2.2
    { request := { method := "DELETE",
                   path := "/enrollments/r1?api-version=2017-08-31-preview",
                   headers := [], body := none },
      suppliedCallback := none } (by decide)).1⟩

end DeviceEnrollment
